import Mathlib

/-!
Verification of the cluster-formation component of the XMRT mesh network
(`src/core/meshnet/src/protocol/ClusterFormation.cpp`).

The C++ code is pure computation over device records.  Doubles are embedded
as exact rationals (`ℚ`), `std::vector<Device>` as `List Device`, the thrown
`std::invalid_argument` as `Except ClusterError`, and the two sources of
nondeterminism (`system_clock::now()` and the random id suffix) as explicit
`Nat` parameters of `formCluster`.
-/

/-- A neighboring device, as described by the data model: opaque id, signal
strength, battery percentage, normalized connection stability, hardware
capability metrics and network capability flags. -/
structure Device where
  id : Nat
  rssi : ℚ
  batteryLevel : ℚ
  connectionStability : ℚ
  cpuCores : ℚ
  ramGB : ℚ
  storageGB : ℚ
  supports5G : Bool
  supportsWiFi6 : Bool
  supportsWiFi5 : Bool
deriving DecidableEq, Repr

instance : Inhabited Device :=
  ⟨{ id := 0, rssi := 0, batteryLevel := 0, connectionStability := 0,
     cpuCores := 0, ramGB := 0, storageGB := 0,
     supports5G := false, supportsWiFi6 := false, supportsWiFi5 := false }⟩

/-- The documented domains of the `Device` fields (spec data model §3):
`rssi ∈ [-100, 0]`, `batteryLevel ∈ [0, 100]`, `connectionStability ∈ [0, 1]`,
positive capability metrics. -/
def Device.Valid (d : Device) : Prop :=
  -100 ≤ d.rssi ∧ d.rssi ≤ 0 ∧
  0 ≤ d.batteryLevel ∧ d.batteryLevel ≤ 100 ∧
  0 ≤ d.connectionStability ∧ d.connectionStability ≤ 1 ∧
  0 < d.cpuCores ∧ 0 < d.ramGB ∧ 0 < d.storageGB

instance (d : Device) : Decidable d.Valid := by
  unfold Device.Valid; infer_instance

/-- A formed cluster: generated id, elected leader, member snapshot,
formation timestamp, the size cap applied during formation, and the two
derived summary metrics. -/
structure Cluster where
  id : String
  leader : Device
  members : List Device
  formationTime : Nat
  maxSize : Nat
  averageRssi : ℚ
  totalBatteryLevel : ℚ
deriving DecidableEq, Repr

/-- The single error kind of the component: `std::invalid_argument` thrown by
`formCluster` on an empty device list. -/
inductive ClusterError where
  | invalidInput
deriving DecidableEq, Repr

/-- Modelled from the spec: the constant `MIN_BATTERY_THRESHOLD` is declared
in `ClusterFormation.h`, which is not among the available sources; the spec
fixes only that it is "a fixed minimum battery threshold constant".  The
value 20 is a representative choice; no theorem below depends on it. -/
def MIN_BATTERY_THRESHOLD : ℚ := 20

/-- Capability score (`calculateCapabilityScore`): sub-weighted CPU, RAM and
storage contributions, a single network bonus tier, clamped to at most 1. -/
def calculateCapabilityScore (device : Device) : ℚ :=
  let score : ℚ := 0
  let score := score + min 1 (device.cpuCores / 8) * 0.3
  let score := score + min 1 (device.ramGB / 16) * 0.3
  let score := score + min 1 (device.storageGB / 512) * 0.2
  let score :=
    if device.supports5G then score + 0.2
    else if device.supportsWiFi6 then score + 0.15
    else if device.supportsWiFi5 then score + 0.1
    else score
  min 1 score

/-- Leadership score (`calculateLeadershipScore`): weighted combination of
normalized battery, normalized RSSI, connection stability and capability. -/
def calculateLeadershipScore (device : Device) : ℚ :=
  let batteryScore := device.batteryLevel / 100
  let rssiScore := max 0 ((device.rssi + 100) / 100)
  let stabilityScore := device.connectionStability
  let capabilityScore := calculateCapabilityScore device
  batteryScore * 0.4 + rssiScore * 0.3 + stabilityScore * 0.2 + capabilityScore * 0.1

/-- Loop body of `electLeader`: runs over the remaining devices carrying the
best candidate seen so far and its score (initially none and `-1.0`),
replacing the candidate exactly when a score is strictly greater. -/
def electLeaderAux : List Device → Option Device → ℚ → Option Device
  | [], bestCandidate, _ => bestCandidate
  | device :: rest, bestCandidate, bestScore =>
    let score := calculateLeadershipScore device
    if score > bestScore then electLeaderAux rest (some device) score
    else electLeaderAux rest bestCandidate bestScore

/-- Leader election (`electLeader`): none on an empty list, otherwise the
strict-maximum scan starting from score `-1.0`. -/
def electLeader (devices : List Device) : Option Device :=
  if devices = [] then none
  else electLeaderAux devices none (-1)

/-- Cluster id generation (`generateClusterId`); the millisecond timestamp
and the random suffix drawn from `[1000, 9999]` are injected as parameters
since they are the component's only nondeterminism. -/
def generateClusterId (timestampMs randSuffix : Nat) : String :=
  "cluster_" ++ toString timestampMs ++ "_" ++ toString randSuffix

/-- Insertion step of the RSSI sort: places `d` before the first element whose
`rssi` is strictly smaller, realizing the comparator `a.rssi > b.rssi` used by
the `std::sort` call in `formCluster`. -/
def insertByRssi (d : Device) : List Device → List Device
  | [] => [d]
  | e :: es => if d.rssi > e.rssi then d :: e :: es else e :: insertByRssi d es

/-- Sorting pass of `formCluster`: sorts the copied device list descending by
`rssi` (the `std::sort` call with comparator `a.rssi > b.rssi`). -/
def sortByRssiDesc : List Device → List Device
  | [] => []
  | d :: ds => insertByRssi d (sortByRssiDesc ds)

/-- Average RSSI (`calculateAverageRssi`): 0 on an empty member list,
otherwise the accumulated sum divided by the member count. -/
def calculateAverageRssi (members : List Device) : ℚ :=
  if members = [] then 0
  else (members.foldl (fun sum device => sum + device.rssi) 0) / members.length

/-- Total battery (`calculateTotalBattery`): accumulated sum of the members'
battery levels. -/
def calculateTotalBattery (members : List Device) : ℚ :=
  members.foldl (fun total device => total + device.batteryLevel) 0

/-- Cluster formation (`formCluster`): rejects an empty device list, sorts by
descending RSSI, truncates to `maxClusterSize` (`resize` shrinks only, hence
`take`), elects a leader (falling back to the first sorted device when the
election yields none), and packages members with the derived metrics. -/
def formCluster (devices : List Device) (maxClusterSize : Nat)
    (timestampMs randSuffix now : Nat) : Except ClusterError Cluster :=
  if devices = [] then
    Except.error ClusterError.invalidInput
  else
    let sortedDevices := sortByRssiDesc devices
    let sortedDevices := sortedDevices.take maxClusterSize
    let leader := (electLeader sortedDevices).getD sortedDevices.headI
    Except.ok
      { id := generateClusterId timestampMs randSuffix
        leader := leader
        members := sortedDevices
        formationTime := now
        maxSize := maxClusterSize
        averageRssi := calculateAverageRssi sortedDevices
        totalBatteryLevel := calculateTotalBattery sortedDevices }

/-- Cluster optimization (`optimizeCluster`): drops members below the battery
threshold, re-elects a leader only when no remaining member carries the old
leader's id and the pruned list is non-empty, and recomputes the metrics. -/
def optimizeCluster (cluster : Cluster) : Cluster :=
  let members := cluster.members.filter
    (fun device => !decide (device.batteryLevel < MIN_BATTERY_THRESHOLD))
  let leader :=
    if members.any (fun device => device.id == cluster.leader.id) then
      cluster.leader
    else if members = [] then
      cluster.leader
    else
      match electLeader members with
      | some newLeader => newLeader
      | none => cluster.leader
  { cluster with
    members := members
    leader := leader
    averageRssi := calculateAverageRssi members
    totalBatteryLevel := calculateTotalBattery members }

/-- Network bonus tier of the spec's capability formula (§4.1): exactly one
tier, evaluated in priority order 5G, then WiFi 6, then WiFi 5. -/
def networkBonus (d : Device) : ℚ :=
  if d.supports5G then 0.2
  else if d.supportsWiFi6 then 0.15
  else if d.supportsWiFi5 then 0.1
  else 0

/-- Leadership score exactly as the specification words it (§4.1): used to
check the code's `calculateLeadershipScore`/`calculateCapabilityScore` pair
against the spec formula. -/
def specLeadershipScore (d : Device) : ℚ :=
  let capability :=
    min 1 (0.3 * min 1 (d.cpuCores / 8) + 0.3 * min 1 (d.ramGB / 16) +
      0.2 * min 1 (d.storageGB / 512) + networkBonus d)
  0.4 * (d.batteryLevel / 100) + 0.3 * max 0 ((d.rssi + 100) / 100) +
    0.2 * d.connectionStability + 0.1 * capability

/-- Sample device used to instantiate hypotheses of the theorems below. -/
def devA : Device :=
  { id := 1, rssi := -40, batteryLevel := 90, connectionStability := 1,
    cpuCores := 4, ramGB := 8, storageGB := 128,
    supports5G := false, supportsWiFi6 := true, supportsWiFi5 := true }

/-- Second sample device. -/
def devB : Device :=
  { id := 2, rssi := -30, batteryLevel := 20, connectionStability := 0,
    cpuCores := 2, ramGB := 4, storageGB := 64,
    supports5G := true, supportsWiFi6 := false, supportsWiFi5 := false }

/-- Third sample device. -/
def devC : Device :=
  { id := 3, rssi := -80, batteryLevel := 95, connectionStability := 1,
    cpuCores := 8, ramGB := 16, storageGB := 512,
    supports5G := false, supportsWiFi6 := false, supportsWiFi5 := true }

/-- Sample device below the battery threshold. -/
def devLow : Device :=
  { id := 4, rssi := -60, batteryLevel := 5, connectionStability := 1,
    cpuCores := 2, ramGB := 2, storageGB := 32,
    supports5G := false, supportsWiFi6 := false, supportsWiFi5 := false }

/-- Sample cluster used to instantiate hypotheses about `optimizeCluster`. -/
def sampleCluster : Cluster :=
  { id := "cluster_0_1000", leader := devA, members := [devB, devA, devC],
    formationTime := 0, maxSize := 3,
    averageRssi := -50, totalBatteryLevel := 205 }

/-- Sample cluster all of whose members are below the battery threshold. -/
def lowCluster : Cluster :=
  { id := "cluster_0_2000", leader := devLow, members := [devLow],
    formationTime := 0, maxSize := 2,
    averageRssi := -60, totalBatteryLevel := 5 }

/-! ### Helper lemmas -/

lemma calculateCapabilityScore_eq (d : Device) : calculateCapabilityScore d =
    min 1 (0.3 * min 1 (d.cpuCores / 8) + 0.3 * min 1 (d.ramGB / 16) +
      0.2 * min 1 (d.storageGB / 512) + networkBonus d) := by
  simp only [calculateCapabilityScore, networkBonus]
  rcases d.supports5G <;> rcases d.supportsWiFi6 <;> rcases d.supportsWiFi5 <;>
    simp only [Bool.false_eq_true, if_true, if_false, ite_true, ite_false] <;>
    (congr 1 ; ring)

lemma networkBonus_nonneg (d : Device) : 0 ≤ networkBonus d := by
  simp only [networkBonus]
  split_ifs <;> norm_num

lemma calculateCapabilityScore_nonneg (d : Device)
    (hc : 0 ≤ d.cpuCores) (hr : 0 ≤ d.ramGB) (hs : 0 ≤ d.storageGB) :
    0 ≤ calculateCapabilityScore d := by
  rw [calculateCapabilityScore_eq]
  have h1 : (0:ℚ) ≤ min 1 (d.cpuCores / 8) := le_min (by norm_num) (by positivity)
  have h2 : (0:ℚ) ≤ min 1 (d.ramGB / 16) := le_min (by norm_num) (by positivity)
  have h3 : (0:ℚ) ≤ min 1 (d.storageGB / 512) := le_min (by norm_num) (by positivity)
  have h4 := networkBonus_nonneg d
  exact le_min (by norm_num) (by nlinarith)

lemma calculateLeadershipScore_nonneg (d : Device) (h : d.Valid) :
    0 ≤ calculateLeadershipScore d := by
  obtain ⟨-, -, hb, -, hs, -, hc, hr, hg⟩ := h
  have hcap := calculateCapabilityScore_nonneg d hc.le hr.le hg.le
  have hmax : (0:ℚ) ≤ max 0 ((d.rssi + 100) / 100) := le_max_left 0 _
  simp only [calculateLeadershipScore]
  nlinarith

lemma calculateCapabilityScore_mono_cpu (d : Device) (x y : ℚ) (h : x ≤ y) :
    calculateCapabilityScore { d with cpuCores := x } ≤
      calculateCapabilityScore { d with cpuCores := y } := by
  simp only [calculateCapabilityScore]
  split_ifs <;> gcongr

lemma calculateCapabilityScore_mono_ram (d : Device) (x y : ℚ) (h : x ≤ y) :
    calculateCapabilityScore { d with ramGB := x } ≤
      calculateCapabilityScore { d with ramGB := y } := by
  simp only [calculateCapabilityScore]
  split_ifs <;> gcongr

lemma calculateCapabilityScore_mono_storage (d : Device) (x y : ℚ) (h : x ≤ y) :
    calculateCapabilityScore { d with storageGB := x } ≤
      calculateCapabilityScore { d with storageGB := y } := by
  simp only [calculateCapabilityScore]
  split_ifs <;> gcongr

lemma foldl_add_eq_sum (f : Device → ℚ) (a : ℚ) (l : List Device) :
    l.foldl (fun s d => s + f d) a = a + (l.map f).sum := by
  induction l generalizing a with
  | nil => simp
  | cons d ds ih => simp only [List.foldl_cons, List.map_cons, List.sum_cons, ih]; ring

lemma calculateAverageRssi_eq (l : List Device) :
    calculateAverageRssi l =
      if l = [] then 0 else (l.map Device.rssi).sum / l.length := by
  simp only [calculateAverageRssi, foldl_add_eq_sum, zero_add]

lemma calculateTotalBattery_eq (l : List Device) :
    calculateTotalBattery l = (l.map Device.batteryLevel).sum := by
  simp only [calculateTotalBattery, foldl_add_eq_sum, zero_add]

lemma insertByRssi_perm (d : Device) (l : List Device) :
    List.Perm (insertByRssi d l) (d :: l) := by
  induction l with
  | nil => exact List.Perm.refl _
  | cons e es ih =>
    simp only [insertByRssi]
    split_ifs
    · exact List.Perm.refl _
    · exact (ih.cons e).trans (List.Perm.swap d e es)

lemma sortByRssiDesc_perm (l : List Device) : List.Perm (sortByRssiDesc l) l := by
  induction l with
  | nil => exact List.Perm.refl _
  | cons d ds ih => exact (insertByRssi_perm d (sortByRssiDesc ds)).trans (ih.cons d)

lemma electLeaderAux_eq_some (l : List Device) (b : Device) (s : ℚ) :
    ∃ r, electLeaderAux l (some b) s = some r := by
  induction l generalizing b s with
  | nil => exact ⟨b, rfl⟩
  | cons d ds ih =>
    simp only [electLeaderAux]
    split_ifs
    · exact ih d _
    · exact ih b s

lemma electLeaderAux_mem (l : List Device) (acc : Option Device) (s : ℚ) (r : Device)
    (h : electLeaderAux l acc s = some r) : acc = some r ∨ r ∈ l := by
  induction l generalizing acc s with
  | nil => exact Or.inl h
  | cons d ds ih =>
    simp only [electLeaderAux] at h
    split_ifs at h
    · rcases ih _ _ h with h' | h'
      · exact Or.inr (by simp [Option.some_inj.mp h'])
      · exact Or.inr (List.mem_cons_of_mem d h')
    · rcases ih _ _ h with h' | h'
      · exact Or.inl h'
      · exact Or.inr (List.mem_cons_of_mem d h')

lemma electLeader_mem (l : List Device) (r : Device) (h : electLeader l = some r) :
    r ∈ l := by
  simp only [electLeader] at h
  split_ifs at h
  rcases electLeaderAux_mem l none (-1) r h with h' | h'
  · exact absurd h' (by simp)
  · exact h'

lemma electLeaderAux_first_max (l : List Device) (b r : Device)
    (h : electLeaderAux l (some b) (calculateLeadershipScore b) = some r) :
    ∃ pre post, b :: l = pre ++ r :: post ∧
      (∀ x ∈ pre, calculateLeadershipScore x < calculateLeadershipScore r) ∧
      (∀ x ∈ post, calculateLeadershipScore x ≤ calculateLeadershipScore r) := by
  induction l generalizing b with
  | nil =>
    simp only [electLeaderAux, Option.some_inj] at h
    exact ⟨[], [], by simp [h], by simp, by simp⟩
  | cons d ds ih =>
    simp only [electLeaderAux] at h
    split_ifs at h with hc
    · obtain ⟨pre, post, heq, hpre, hpost⟩ := ih d h
      have hbr : calculateLeadershipScore b < calculateLeadershipScore r := by
        cases pre with
        | nil =>
          obtain ⟨hd, -⟩ := List.cons_eq_cons.mp heq
          rw [← hd]; exact hc
        | cons p pre' =>
          obtain ⟨hd, -⟩ := List.cons_eq_cons.mp heq
          exact hc.trans (hd ▸ hpre p (List.mem_cons_self p pre'))
      refine ⟨b :: pre, post, ?_, ?_, hpost⟩
      · rw [List.cons_append, heq]
      · intro x hx
        rcases List.mem_cons.mp hx with rfl | hx
        · exact hbr
        · exact hpre x hx
    · obtain ⟨pre, post, heq, hpre, hpost⟩ := ih b h
      cases pre with
      | nil =>
        obtain ⟨hb, hp⟩ := List.cons_eq_cons.mp heq
        refine ⟨[], d :: ds, by simp [hb], by simp, ?_⟩
        intro x hx
        rcases List.mem_cons.mp hx with rfl | hx
        · rw [← hb]; exact not_lt.mp hc
        · exact hpost x (hp ▸ hx)
      | cons p pre' =>
        obtain ⟨hb, hds⟩ := List.cons_eq_cons.mp heq
        have hbmem : calculateLeadershipScore b < calculateLeadershipScore r := by
          rw [hb]; exact hpre p (List.mem_cons_self p pre')
        refine ⟨b :: d :: pre', post, ?_, ?_, hpost⟩
        · rw [hds]; rfl
        · intro x hx
          rcases List.mem_cons.mp hx with rfl | hx
          · exact hbmem
          · rcases List.mem_cons.mp hx with rfl | hx
            · exact lt_of_le_of_lt (not_lt.mp hc) hbmem
            · exact hpre x (List.mem_cons_of_mem p hx)

lemma electLeader_first_max (devices : List Device) (hne : devices ≠ [])
    (hv : ∀ d ∈ devices, Device.Valid d) :
    ∃ r pre post, electLeader devices = some r ∧ devices = pre ++ r :: post ∧
      (∀ x ∈ pre, calculateLeadershipScore x < calculateLeadershipScore r) ∧
      (∀ x ∈ post, calculateLeadershipScore x ≤ calculateLeadershipScore r) := by
  obtain ⟨d, ds, rfl⟩ := List.exists_cons_of_ne_nil hne
  have hd : 0 ≤ calculateLeadershipScore d :=
    calculateLeadershipScore_nonneg d (hv d (List.mem_cons_self d ds))
  have hgt : calculateLeadershipScore d > -1 := by linarith
  have hstep : electLeader (d :: ds) =
      electLeaderAux ds (some d) (calculateLeadershipScore d) := by
    simp only [electLeader, electLeaderAux, if_neg (List.cons_ne_nil d ds), if_pos hgt]
  obtain ⟨r, hr⟩ := electLeaderAux_eq_some ds d (calculateLeadershipScore d)
  obtain ⟨pre, post, heq, hpre, hpost⟩ := electLeaderAux_first_max ds d r hr
  exact ⟨r, pre, post, by rw [hstep, hr], heq, hpre, hpost⟩

/-! ### Claim theorems -/

/-- C4: for every device the leadership score computed by the code equals the
spec formula `0.4*(battery/100) + 0.3*max(0,(rssi+100)/100) +
0.2*stability + 0.1*capability`, where the capability score clamps the
sub-weighted hardware metrics plus exactly one network bonus tier chosen in
priority order 5G, WiFi 6, WiFi 5. -/
theorem calculateLeadershipScore_matches_spec (d : Device) :
    calculateLeadershipScore d = specLeadershipScore d := by
  simp only [calculateLeadershipScore, specLeadershipScore, calculateCapabilityScore_eq]
  ring

/-- C8: the leadership score is monotone in each input factor separately:
raising `batteryLevel`, `rssi`, `connectionStability`, `cpuCores`, `ramGB` or
`storageGB` while all other fields stay fixed never decreases the score. -/
theorem calculateLeadershipScore_monotone (d : Device) (x y : ℚ) (h : x ≤ y) :
    calculateLeadershipScore { d with batteryLevel := x } ≤
      calculateLeadershipScore { d with batteryLevel := y } ∧
    calculateLeadershipScore { d with rssi := x } ≤
      calculateLeadershipScore { d with rssi := y } ∧
    calculateLeadershipScore { d with connectionStability := x } ≤
      calculateLeadershipScore { d with connectionStability := y } ∧
    calculateLeadershipScore { d with cpuCores := x } ≤
      calculateLeadershipScore { d with cpuCores := y } ∧
    calculateLeadershipScore { d with ramGB := x } ≤
      calculateLeadershipScore { d with ramGB := y } ∧
    calculateLeadershipScore { d with storageGB := x } ≤
      calculateLeadershipScore { d with storageGB := y } := by
  refine ⟨?_, ?_, ?_, ?_, ?_, ?_⟩
  · have hcap : calculateCapabilityScore { d with batteryLevel := x } =
        calculateCapabilityScore { d with batteryLevel := y } := rfl
    simp only [calculateLeadershipScore, hcap]
    gcongr
  · have hcap : calculateCapabilityScore { d with rssi := x } =
        calculateCapabilityScore { d with rssi := y } := rfl
    simp only [calculateLeadershipScore, hcap]
    gcongr
  · have hcap : calculateCapabilityScore { d with connectionStability := x } =
        calculateCapabilityScore { d with connectionStability := y } := rfl
    simp only [calculateLeadershipScore, hcap]
    gcongr
  · have hcap := calculateCapabilityScore_mono_cpu d x y h
    simp only [calculateLeadershipScore]
    gcongr ?q1 * 0.4 + ?q2 * 0.3 + ?q3 * 0.2 + ?q4 * 0.1 <;> exact le_rfl
  · have hcap := calculateCapabilityScore_mono_ram d x y h
    simp only [calculateLeadershipScore]
    gcongr ?r1 * 0.4 + ?r2 * 0.3 + ?r3 * 0.2 + ?r4 * 0.1 <;> exact le_rfl
  · have hcap := calculateCapabilityScore_mono_storage d x y h
    simp only [calculateLeadershipScore]
    gcongr ?s1 * 0.4 + ?s2 * 0.3 + ?s3 * 0.2 + ?s4 * 0.1 <;> exact le_rfl

/-- Witness for C8 at a concrete device and bounds. -/
theorem calculateLeadershipScore_monotone_witness :
    (0:ℚ) ≤ 1 ∧
    (calculateLeadershipScore { devA with batteryLevel := 0 } ≤
      calculateLeadershipScore { devA with batteryLevel := 1 } ∧
    calculateLeadershipScore { devA with rssi := 0 } ≤
      calculateLeadershipScore { devA with rssi := 1 } ∧
    calculateLeadershipScore { devA with connectionStability := 0 } ≤
      calculateLeadershipScore { devA with connectionStability := 1 } ∧
    calculateLeadershipScore { devA with cpuCores := 0 } ≤
      calculateLeadershipScore { devA with cpuCores := 1 } ∧
    calculateLeadershipScore { devA with ramGB := 0 } ≤
      calculateLeadershipScore { devA with ramGB := 1 } ∧
    calculateLeadershipScore { devA with storageGB := 0 } ≤
      calculateLeadershipScore { devA with storageGB := 1 }) :=
  ⟨by norm_num, calculateLeadershipScore_monotone devA 0 1 (by norm_num)⟩

/-- C3: over the documented field domains, `electLeader` returns no leader
exactly on the empty list, and on a non-empty list it returns the first
device in list order whose score is strictly above every earlier device's
and at least every later device's (first candidate wins ties). -/
theorem electLeader_spec (devices : List Device) (hv : ∀ d ∈ devices, Device.Valid d) :
    (electLeader devices = none ↔ devices = []) ∧
    (devices ≠ [] → ∃ r pre post, electLeader devices = some r ∧
      devices = pre ++ r :: post ∧
      (∀ x ∈ pre, calculateLeadershipScore x < calculateLeadershipScore r) ∧
      (∀ x ∈ post, calculateLeadershipScore x ≤ calculateLeadershipScore r)) := by
  constructor
  · constructor
    · intro h
      by_contra hne
      obtain ⟨r, -, -, hr, -⟩ := electLeader_first_max devices hne hv
      rw [h] at hr
      exact Option.noConfusion hr
    · intro h
      subst h
      rfl
  · intro hne
    exact electLeader_first_max devices hne hv

/-- Witness for C3 on a concrete two-device list. -/
theorem electLeader_spec_witness :
    (∀ d ∈ [devB, devA], Device.Valid d) ∧
    ((electLeader [devB, devA] = none ↔ [devB, devA] = []) ∧
    ([devB, devA] ≠ [] → ∃ r pre post, electLeader [devB, devA] = some r ∧
      [devB, devA] = pre ++ r :: post ∧
      (∀ x ∈ pre, calculateLeadershipScore x < calculateLeadershipScore r) ∧
      (∀ x ∈ post, calculateLeadershipScore x ≤ calculateLeadershipScore r))) :=
  ⟨by decide, electLeader_spec [devB, devA] (by decide)⟩

lemma formCluster_ok (devices : List Device) (m a b t : Nat) (hne : devices ≠ []) :
    formCluster devices m a b t = Except.ok
      { id := generateClusterId a b
        leader := (electLeader ((sortByRssiDesc devices).take m)).getD
          ((sortByRssiDesc devices).take m).headI
        members := (sortByRssiDesc devices).take m
        formationTime := t
        maxSize := m
        averageRssi := calculateAverageRssi ((sortByRssiDesc devices).take m)
        totalBatteryLevel := calculateTotalBattery ((sortByRssiDesc devices).take m) } := by
  simp only [formCluster, if_neg hne]

lemma optimizeCluster_members (cl : Cluster) :
    (optimizeCluster cl).members =
      cl.members.filter (fun device => !decide (device.batteryLevel < MIN_BATTERY_THRESHOLD)) :=
  rfl

lemma optimizeCluster_leader (cl : Cluster) :
    (optimizeCluster cl).leader =
      if (optimizeCluster cl).members.any (fun device => device.id == cl.leader.id) then
        cl.leader
      else if (optimizeCluster cl).members = [] then cl.leader
      else
        match electLeader (optimizeCluster cl).members with
        | some newLeader => newLeader
        | none => cl.leader :=
  rfl

lemma optimizeCluster_averageRssi (cl : Cluster) :
    (optimizeCluster cl).averageRssi = calculateAverageRssi (optimizeCluster cl).members :=
  rfl

lemma optimizeCluster_totalBattery (cl : Cluster) :
    (optimizeCluster cl).totalBatteryLevel = calculateTotalBattery (optimizeCluster cl).members :=
  rfl

/-- C6: `formCluster` fails, with the single `InvalidInput` error kind,
exactly when the device list is empty; on any non-empty list (with a size
cap in the documented positive domain) it returns a cluster.  All other
operations of the component are total functions of this file. -/
theorem formCluster_error_iff (devices : List Device) (m a b t : Nat) (hm : 1 ≤ m) :
    (formCluster devices m a b t = Except.error ClusterError.invalidInput ↔ devices = []) ∧
    (devices ≠ [] → ∃ c, formCluster devices m a b t = Except.ok c) := by
  constructor
  · constructor
    · intro h
      by_contra hne
      rw [formCluster_ok devices m a b t hne] at h
      exact Except.noConfusion h
    · intro h
      simp [formCluster, h]
  · intro hne
    exact ⟨_, formCluster_ok devices m a b t hne⟩

/-- Witness for C6 on a concrete singleton list. -/
theorem formCluster_error_iff_witness :
    1 ≤ 2 ∧
    ((formCluster [devA] 2 0 0 0 = Except.error ClusterError.invalidInput ↔ [devA] = []) ∧
    ([devA] ≠ [] → ∃ c, formCluster [devA] 2 0 0 0 = Except.ok c)) :=
  ⟨by decide, formCluster_error_iff [devA] 2 0 0 0 (by decide)⟩

/-- C7: for non-empty input and positive cap, the formed cluster has exactly
`min (number of devices) maxClusterSize` members. -/
theorem formCluster_members_size (devices : List Device) (m a b t : Nat)
    (hne : devices ≠ []) (hm : 1 ≤ m) :
    ∃ c, formCluster devices m a b t = Except.ok c ∧
      c.members.length = min devices.length m := by
  refine ⟨_, formCluster_ok devices m a b t hne, ?_⟩
  show ((sortByRssiDesc devices).take m).length = min devices.length m
  rw [List.length_take, (sortByRssiDesc_perm devices).length_eq, Nat.min_comm]

/-- Witness for C7 with three devices and cap 2. -/
theorem formCluster_members_size_witness :
    ([devA, devB, devC] ≠ [] ∧ 1 ≤ 2) ∧
    (∃ c, formCluster [devA, devB, devC] 2 0 0 0 = Except.ok c ∧
      c.members.length = min [devA, devB, devC].length 2) :=
  ⟨⟨by decide, by decide⟩,
   formCluster_members_size [devA, devB, devC] 2 0 0 0 (by decide) (by decide)⟩

/-- C9: in every cluster produced by `formCluster` or `optimizeCluster`, the
`averageRssi` field is the arithmetic mean of the final members' `rssi`
values (0 when there are none) and `totalBatteryLevel` is the sum of their
battery levels. -/
theorem cluster_metrics :
    (∀ devices m a b t, devices ≠ [] → 1 ≤ m →
      ∃ c, formCluster devices m a b t = Except.ok c ∧
        c.averageRssi = (if c.members = [] then 0
          else (c.members.map Device.rssi).sum / c.members.length) ∧
        c.totalBatteryLevel = (c.members.map Device.batteryLevel).sum) ∧
    (∀ cl,
      (optimizeCluster cl).averageRssi = (if (optimizeCluster cl).members = [] then 0
        else ((optimizeCluster cl).members.map Device.rssi).sum /
          (optimizeCluster cl).members.length) ∧
      (optimizeCluster cl).totalBatteryLevel =
        ((optimizeCluster cl).members.map Device.batteryLevel).sum) := by
  constructor
  · intro devices m a b t hne hm
    refine ⟨_, formCluster_ok devices m a b t hne, ?_, ?_⟩
    · exact calculateAverageRssi_eq _
    · exact calculateTotalBattery_eq _
  · intro cl
    constructor
    · rw [optimizeCluster_averageRssi]
      exact calculateAverageRssi_eq _
    · rw [optimizeCluster_totalBattery]
      exact calculateTotalBattery_eq _

/-- Witness for C9 on a concrete formation. -/
theorem cluster_metrics_witness :
    ([devA, devB] ≠ [] ∧ 1 ≤ 2) ∧
    (∃ c, formCluster [devA, devB] 2 0 0 0 = Except.ok c ∧
      c.averageRssi = (if c.members = [] then 0
        else (c.members.map Device.rssi).sum / c.members.length) ∧
      c.totalBatteryLevel = (c.members.map Device.batteryLevel).sum) :=
  ⟨⟨by decide, by decide⟩, cluster_metrics.1 [devA, devB] 2 0 0 0 (by decide) (by decide)⟩

/-- C1: the elected leader always carries the identity of some member: in
every cluster formed from a non-empty list with positive cap, and in every
optimized cluster (with in-domain devices) whose pruned member list is
non-empty, some member's id equals the leader's id. -/
theorem leader_is_member :
    (∀ devices m a b t, devices ≠ [] → 1 ≤ m →
      ∃ c, formCluster devices m a b t = Except.ok c ∧
        ∃ d ∈ c.members, d.id = c.leader.id) ∧
    (∀ cl, (∀ d ∈ cl.members, Device.Valid d) → (optimizeCluster cl).members ≠ [] →
      ∃ d ∈ (optimizeCluster cl).members, d.id = (optimizeCluster cl).leader.id) := by
  constructor
  · intro devices m a b t hne hm
    refine ⟨_, formCluster_ok devices m a b t hne, ?_⟩
    show ∃ d ∈ (sortByRssiDesc devices).take m,
      d.id = ((electLeader ((sortByRssiDesc devices).take m)).getD
        ((sortByRssiDesc devices).take m).headI).id
    have hTne : (sortByRssiDesc devices).take m ≠ [] := by
      refine List.length_pos.mp ?_
      rw [List.length_take, (sortByRssiDesc_perm devices).length_eq]
      exact lt_min hm (List.length_pos.mpr hne)
    cases helec : electLeader ((sortByRssiDesc devices).take m) with
    | some r =>
      exact ⟨r, electLeader_mem _ r helec, rfl⟩
    | none =>
      obtain ⟨x, xs, hT⟩ := List.exists_cons_of_ne_nil hTne
      rw [hT]
      exact ⟨x, List.mem_cons_self x xs, rfl⟩
  · intro cl hv hne
    by_cases hany :
        (optimizeCluster cl).members.any (fun device => device.id == cl.leader.id) = true
    · rw [optimizeCluster_leader, if_pos hany]
      obtain ⟨d, hd, hid⟩ := List.any_eq_true.mp hany
      exact ⟨d, hd, beq_iff_eq.mp hid⟩
    · have hvF : ∀ d ∈ (optimizeCluster cl).members, Device.Valid d := by
        intro d hd
        rw [optimizeCluster_members] at hd
        exact hv d (List.mem_of_mem_filter hd)
      obtain ⟨r, -, -, hr, -, -, -⟩ := electLeader_first_max _ hne hvF
      rw [optimizeCluster_leader, if_neg hany, if_neg hne, hr]
      exact ⟨r, electLeader_mem _ r hr, rfl⟩

/-- Witness for C1: a concrete formation and a concrete optimization. -/
theorem leader_is_member_witness :
    (([devA, devB] ≠ [] ∧ 1 ≤ 2) ∧
      ((∀ d ∈ sampleCluster.members, Device.Valid d) ∧
        (optimizeCluster sampleCluster).members ≠ [])) ∧
    (∃ c, formCluster [devA, devB] 2 0 0 0 = Except.ok c ∧
      ∃ d ∈ c.members, d.id = c.leader.id) ∧
    (∃ d ∈ (optimizeCluster sampleCluster).members,
      d.id = (optimizeCluster sampleCluster).leader.id) :=
  ⟨⟨⟨by decide, by decide⟩, ⟨by decide, by decide⟩⟩,
   leader_is_member.1 [devA, devB] 2 0 0 0 (by decide) (by decide),
   leader_is_member.2 sampleCluster (by decide) (by decide)⟩

/-- C5: `optimizeCluster` keeps exactly the members at or above the battery
threshold, in their original order; membership never grows, and pruning
every member yields the empty member list as a normal result. -/
theorem optimizeCluster_prunes (cl : Cluster) :
    (optimizeCluster cl).members =
      cl.members.filter (fun device => decide (MIN_BATTERY_THRESHOLD ≤ device.batteryLevel)) ∧
    (optimizeCluster cl).members.length ≤ cl.members.length ∧
    ((∀ d ∈ cl.members, d.batteryLevel < MIN_BATTERY_THRESHOLD) →
      (optimizeCluster cl).members = []) := by
  have hfilter : (optimizeCluster cl).members =
      cl.members.filter (fun device => decide (MIN_BATTERY_THRESHOLD ≤ device.batteryLevel)) := by
    rw [optimizeCluster_members]
    refine List.filter_congr ?_
    intro x _
    rw [← decide_not]
    exact decide_eq_decide.mpr not_lt
  refine ⟨hfilter, ?_, ?_⟩
  · rw [optimizeCluster_members]
    exact List.length_filter_le _ _
  · intro h
    rw [hfilter, List.filter_eq_nil_iff]
    intro a ha
    simp only [decide_eq_true_eq]
    exact not_le.mpr (h a ha)

/-- Witness for C5 on a cluster whose only member is below the threshold. -/
theorem optimizeCluster_prunes_witness :
    (∀ d ∈ lowCluster.members, d.batteryLevel < MIN_BATTERY_THRESHOLD) ∧
    ((optimizeCluster lowCluster).members =
      lowCluster.members.filter
        (fun device => decide (MIN_BATTERY_THRESHOLD ≤ device.batteryLevel)) ∧
    (optimizeCluster lowCluster).members.length ≤ lowCluster.members.length ∧
    (optimizeCluster lowCluster).members = []) :=
  ⟨by decide,
   (optimizeCluster_prunes lowCluster).1,
   (optimizeCluster_prunes lowCluster).2.1,
   (optimizeCluster_prunes lowCluster).2.2 (by decide)⟩

/-- C10: `optimizeCluster` leaves `id`, `formationTime` and `maxSize`
untouched, and keeps the old leader whenever some surviving member carries
the old leader's id, even if another survivor now scores higher. -/
theorem optimizeCluster_frame (cl : Cluster) :
    (optimizeCluster cl).id = cl.id ∧
    (optimizeCluster cl).formationTime = cl.formationTime ∧
    (optimizeCluster cl).maxSize = cl.maxSize ∧
    ((∃ d ∈ (optimizeCluster cl).members, d.id = cl.leader.id) →
      (optimizeCluster cl).leader = cl.leader) := by
  refine ⟨rfl, rfl, rfl, ?_⟩
  rintro ⟨d, hd, hid⟩
  have hany : (optimizeCluster cl).members.any
      (fun device => device.id == cl.leader.id) = true :=
    List.any_eq_true.mpr ⟨d, hd, beq_iff_eq.mpr hid⟩
  rw [optimizeCluster_leader, if_pos hany]

/-- Witness for C10 on a concrete cluster whose leader survives pruning. -/
theorem optimizeCluster_frame_witness :
    (∃ d ∈ (optimizeCluster sampleCluster).members, d.id = sampleCluster.leader.id) ∧
    (optimizeCluster sampleCluster).leader = sampleCluster.leader :=
  ⟨by decide, (optimizeCluster_frame sampleCluster).2.2.2 (by decide)⟩
